import Mathlib

/-!
Verification of `threads_post.py`: a single-file integration script that
resolves promotional content (directly-supplied values or a Shopify catalog
item), composes a bounded caption, and posts it through the two-phase
Threads publish protocol.  Strings are modelled as `List Char`; machine
behaviour of the Python string primitives used by the script is embedded
explicitly below.
-/

set_option maxRecDepth 20000

namespace ThreadsPost

/-- Whitespace predicate of Python `str.strip()`, restricted to the
whitespace characters reachable in this program (ASCII whitespace plus
no-break space). -/
def isPySpace (c : Char) : Bool :=
  c = ' ' || c = '\t' || c = '\n' || c = '\r' ||
  c = Char.ofNat 11 || c = Char.ofNat 12 || c = Char.ofNat 160

/-- Model of Python `str.lstrip()`. -/
def lstrip (s : List Char) : List Char := s.dropWhile isPySpace

/-- Model of Python `str.rstrip()`. -/
def rstrip (s : List Char) : List Char := (s.reverse.dropWhile isPySpace).reverse

/-- Model of Python `str.strip()`. -/
def pyStrip (s : List Char) : List Char := rstrip (lstrip s)

/-- Modelled from the spec: Python `html.unescape`, restricted to the
common named entities (`amp`, `lt`, `gt`, `quot`); identity elsewhere, as
the stdlib is on ampersand-free text.  The full stdlib entity table is
external to the repository; no claim depends on entities beyond these. -/
def unescapeAux : List Char → List Char
  | '&' :: 'a' :: 'm' :: 'p' :: ';' :: rest => '&' :: unescapeAux rest
  | '&' :: 'l' :: 't' :: ';' :: rest => '<' :: unescapeAux rest
  | '&' :: 'g' :: 't' :: ';' :: rest => '>' :: unescapeAux rest
  | '&' :: 'q' :: 'u' :: 'o' :: 't' :: ';' :: rest => '"' :: unescapeAux rest
  | c :: rest => c :: unescapeAux rest
  | [] => []

/-- Model of `html.unescape` on the fragment of HTML entities above. -/
def pyUnescape (s : List Char) : List Char := unescapeAux s

/-- Model of the Python slice `s[:i]`, including the negative-index case
(`s[:i]` with `i < 0` keeps all but the last `-i` characters). -/
def pyTake (s : List Char) (i : Int) : List Char :=
  if 0 ≤ i then s.take i.toNat else s.take (s.length - (-i).toNat)

/-- Model of Python `str.lower()` on the ASCII handles this program uses. -/
def pyLower (s : List Char) : List Char := s.map Char.toLower

/-- Fixed base of the canonical product URL appended by `_build_text`. -/
def productUrlBase : List Char := "https://mydrxm.com/products/".data

/-- Source: `base = f"{title}\n\n{desc}".strip()` applied to the unescaped,
stripped title and description of `_build_text` (threads_post.py lines 43-46). -/
def mkBase (title desc : List Char) : List Char :=
  pyStrip (pyUnescape (pyStrip title) ++ '\n' :: '\n' :: pyUnescape (pyStrip desc))

/-- Source: the truncation step of `_build_text` (threads_post.py lines 47-48):
`if len(base) > CAPTION_LIMIT: base = base[:CAPTION_LIMIT-3].rstrip() + "..."`. -/
def truncBase (limit : Nat) (title desc : List Char) : List Char :=
  if limit < (mkBase title desc).length then
    rstrip (pyTake (mkBase title desc) ((limit : Int) - 3)) ++ '.' :: '.' :: '.' :: []
  else mkBase title desc

/-- Source: `link = f"https://mydrxm.com/products/{handle}" if handle else ""`
(threads_post.py line 45); `None` and the empty string are both falsy. -/
def linkFor (handle : Option (List Char)) : List Char :=
  match handle with
  | none => []
  | some h => if h = [] then [] else productUrlBase ++ h

/-- Source: `_build_text(title, desc, handle)` (threads_post.py lines 42-51),
with the configured `CAPTION_LIMIT` passed explicitly. -/
def _build_text (limit : Nat) (title desc : List Char)
    (handle : Option (List Char)) : List Char :=
  if linkFor handle = [] then truncBase limit title desc
  else truncBase limit title desc ++ '\n' :: '\n' :: linkFor handle

/-- Tag-removal pass of `BeautifulSoup(...)` on the well-formed markup this
program feeds it: splits the input into the text segments lying between
`<...>` tags.  `inTag` records whether the scan is inside a tag; `cur` is
the current text segment, reversed. -/
def splitTags (s : List Char) (inTag : Bool) (cur : List Char) : List (List Char) :=
  match s with
  | [] => [cur.reverse]
  | c :: rest =>
    if inTag then
      if c = '>' then splitTags rest false cur else splitTags rest true cur
    else
      if c = '<' then cur.reverse :: splitTags rest true []
      else splitTags rest false (c :: cur)

/-- Source: `_clean_html_to_text` (threads_post.py lines 36-40).  The
BeautifulSoup call `get_text(separator=" ", strip=True)` resolves entities
in text nodes, strips each text node, drops the empty ones and joins the
rest with a single space; the raw input is truncated to `max_chars = 3000`
characters before parsing. -/
def _clean_html_to_text (html_content : List Char) : List Char :=
  if html_content = [] then []
  else
    List.intercalate [' ']
      (((splitTags (html_content.take 3000) false []).map
          (fun seg => pyStrip (pyUnescape seg))).filter (fun seg => ¬ seg.isEmpty))

/-- Catalog record as consumed by the script: the JSON fields
`title`, `body_html`, `handle`, `images[].src` of a Shopify product. -/
structure Product where
  title : Option (List Char)
  body_html : List Char
  handle : Option (List Char)
  images : List (List Char)
deriving DecidableEq, Repr

/-- Resolved content tuple `(title, desc, handle, image_url)` built by the
main block before composing and publishing. -/
structure ContentItem where
  title : List Char
  desc : List Char
  handle : Option (List Char)
  imageUrl : Option (List Char)
deriving DecidableEq, Repr

/-- Environment-derived configuration read at module load
(threads_post.py lines 10-28).  An unset variable is `none`. -/
structure Config where
  threadsToken : List Char
  autoPublishText : Bool
  contentTitle : Option (List Char)
  contentDesc : Option (List Char)
  contentHandle : Option (List Char)
  contentImageUrl : Option (List Char)
  shopifyToken : List Char
  productHandle : Option (List Char)
  captionLimit : Nat
deriving DecidableEq, Repr

/-- Error taxonomy of the spec; the script raises each as a `SystemExit`
with a human-readable message. -/
inductive Err where
  | ConfigError
  | NotFoundError
  | EmptyCatalogError
deriving DecidableEq, Repr

/-- Observable remote calls to the publishing provider. -/
inductive ApiCall where
  | createText (text : List Char) (autoPublish : Bool)
  | createImage (text imageUrl : List Char)
  | publish
deriving DecidableEq, Repr

/-- Python truthiness of an optional string environment value: set and
non-empty. -/
def isTruthy (o : Option (List Char)) : Bool :=
  match o with
  | none => false
  | some s => ¬ s.isEmpty

/-- Source: `(CONTENT_HANDLE or "").strip() or None` (threads_post.py
lines 146-147). -/
def stripOrNone (o : Option (List Char)) : Option (List Char) :=
  let s := pyStrip (o.getD [])
  if s = [] then none else some s

/-- Source: the predicate of `shopify_fetch_by_handle`
(threads_post.py line 66): `(p.get("handle") or "").lower() == handle.lower()`. -/
def handleMatches (p : Product) (handle : List Char) : Bool :=
  pyLower (p.handle.getD []) = pyLower handle

/-- Source: `shopify_fetch_by_handle` (threads_post.py lines 60-68),
with the fetched page (at most 250 published items) passed explicitly;
the Python loop returns the first matching product, else `None`. -/
def shopify_fetch_by_handle (page : List Product) (handle : List Char) :
    Option Product :=
  page.find? (fun p => handleMatches p handle)

/-- Source: `shopify_fetch_random` (threads_post.py lines 70-78), with the
fetched page passed explicitly and `random.choice` modelled as a seeded
uniform index (`seed % len(page)`): the selection is a deterministic
function of the random state and the page, and always an element of the
page; an empty page raises (`EmptyCatalogError` in the spec taxonomy). -/
def shopify_fetch_random (seed : Nat) (page : List Product) :
    Except Err Product :=
  if h : page = [] then .error .EmptyCatalogError
  else .ok (page.get ⟨seed % page.length, Nat.mod_lt _ (by
    cases page with
    | nil => exact absurd rfl h
    | cons a l => exact Nat.succ_pos _)⟩)

/-- Source: content resolution from the catalog (threads_post.py
lines 150-163); `_shopify_headers` first checks the Shopify token. -/
def itemOfProduct (p : Product) : ContentItem :=
  { title := match p.title with
      | some t => if t = [] then "New Product".data else t
      | none => "New Product".data
    desc := _clean_html_to_text p.body_html
    handle := p.handle
    imageUrl := p.images.head? }

/-- Catalog branch of content resolution (threads_post.py lines 149-164):
forced handle fetch when `PRODUCT_HANDLE` is truthy, else seeded random
selection. -/
def resolveFromCatalog (cfg : Config) (seed : Nat) (page : List Product) :
    Except Err ContentItem :=
  if cfg.shopifyToken = [] then .error .ConfigError
  else if isTruthy cfg.productHandle then
    match shopify_fetch_by_handle page (cfg.productHandle.getD []) with
    | some p => .ok (itemOfProduct p)
    | none => .error .NotFoundError
  else
    match shopify_fetch_random seed page with
    | .ok p => .ok (itemOfProduct p)
    | .error e => .error e

/-- Source: content resolution of the main block (threads_post.py
lines 143-164): the direct path is taken exactly when `CONTENT_TITLE and
CONTENT_DESC` is truthy. -/
def resolveContent (cfg : Config) (seed : Nat) (page : List Product) :
    Except Err ContentItem :=
  if isTruthy cfg.contentTitle && isTruthy cfg.contentDesc then
    .ok { title := pyStrip (cfg.contentTitle.getD [])
          desc := pyStrip (cfg.contentDesc.getD [])
          handle := stripOrNone cfg.contentHandle
          imageUrl := stripOrNone cfg.contentImageUrl }
  else resolveFromCatalog cfg seed page

/-- Source: the main block (threads_post.py lines 138-184), abstracted over
the catalog page and the random state; remote calls are recorded in order
and assumed to succeed (a non-2xx response would abort, which no claim
exercises).  Returns the emitted call trace and the outcome. -/
def runMain (cfg : Config) (seed : Nat) (page : List Product) :
    List ApiCall × Except Err Unit :=
  if cfg.threadsToken = [] then ([], .error .ConfigError)
  else
    match resolveContent cfg seed page with
    | .error e => ([], .error e)
    | .ok item =>
      let text := _build_text cfg.captionLimit item.title item.desc item.handle
      if isTruthy item.imageUrl then
        ([.createImage text (item.imageUrl.getD []), .publish], .ok ())
      else if cfg.autoPublishText then
        ([.createText text true], .ok ())
      else
        ([.createText text false, .publish], .ok ())

-- Concrete fixtures used by witnesses and counterexamples.

/-- Catalog product with an upper-case handle. -/
def prodA : Product := ⟨some "P1".data, [], some "AB".data, []⟩

/-- Catalog product whose handle differs from `prodA` only in case. -/
def prodB : Product := ⟨some "P2".data, [], some "ab".data, []⟩

/-- Configuration with direct content, no image, auto-publish enabled. -/
def cfgAuto : Config :=
  ⟨"t".data, true, some "Red Mug".data, some "Nice".data, none, none, [], none, 280⟩

/-- Content item resolved from `cfgAuto`. -/
def itemAuto : ContentItem := ⟨"Red Mug".data, "Nice".data, none, none⟩

/-- Configuration with no direct content and no forced product handle. -/
def cfgCatalog : Config :=
  ⟨"t".data, false, none, none, none, none, "s".data, none, 280⟩

/-- Configuration supplying a direct title but no direct description. -/
def cfgTitleOnly : Config :=
  ⟨"t".data, false, some "T".data, none, none, none, [], none, 280⟩

-- Helper lemmas about the string primitives.

theorem rstrip_length_le (s : List Char) : (rstrip s).length ≤ s.length := by
  have h := (List.dropWhile_sublist (l := s.reverse) isPySpace).length_le
  simpa [rstrip] using h

theorem pyTake_of_le (s : List Char) (limit : Nat) (h3 : 3 ≤ limit) :
    pyTake s ((limit : Int) - 3) = s.take (limit - 3) := by
  unfold pyTake
  rw [if_pos (by omega)]
  congr 1
  omega

theorem productUrlBase_ne_nil (h : List Char) : productUrlBase ++ h ≠ [] := by
  simp [productUrlBase]

theorem truncBase_length_le (limit : Nat) (title desc : List Char)
    (h3 : 3 ≤ limit) : (truncBase limit title desc).length ≤ limit := by
  unfold truncBase
  split
  · rw [pyTake_of_le _ _ h3]
    have h1 := rstrip_length_le ((mkBase title desc).take (limit - 3))
    have h2 := (mkBase title desc).length_take_le (limit - 3)
    simp only [List.length_append, List.length_cons, List.length_nil]
    omega
  · omega

theorem linkFor_some_ne (h : List Char) (hh : h ≠ []) :
    linkFor (some h) = productUrlBase ++ h := by
  simp [linkFor, hh]

-- Claim C1.

/-- Claim C1, counterexample: with the default limit 280, a 280-character
title and the handle "red-mug", the composed caption is 317 characters
long — the URL is appended after truncation and is not counted against
the limit. -/
theorem caption_limit_counterexample :
    ¬ ((_build_text 280 (List.replicate 280 'a') [] (some "red-mug".data)).length
        ≤ 280) := by decide

/-- Claim C1 (amended): when no handle (or an empty handle) is supplied and
the configured limit is at least 3, the composed caption is at most the
limit; with a non-empty handle the caption exceeds the limit by at most the
appended blank line and URL. -/
theorem caption_length_bounded (limit : Nat) (title desc : List Char)
    (h3 : 3 ≤ limit) :
    (_build_text limit title desc none).length ≤ limit ∧
    ∀ h, (_build_text limit title desc (some h)).length ≤
      limit + (2 + (productUrlBase.length + h.length)) := by
  constructor
  · simpa [_build_text, linkFor] using truncBase_length_le limit title desc h3
  · intro h
    by_cases hh : h = []
    · subst hh
      simp only [_build_text, linkFor, if_pos rfl]
      exact le_trans (truncBase_length_le limit title desc h3) (by omega)
    · have hlk := linkFor_some_ne h hh
      simp only [_build_text, hlk, if_neg (productUrlBase_ne_nil h),
        List.length_append, List.length_cons]
      have := truncBase_length_le limit title desc h3
      omega

/-- Claim C1, witness for the amended bound at a concrete input. -/
theorem caption_length_bounded_witness :
    (_build_text 280 "Red Mug".data "Nice".data none).length ≤ 280 :=
  (caption_length_bounded 280 "Red Mug".data "Nice".data (by decide)).1

-- Claim C2.

/-- Claim C2: a non-empty handle makes the caption end with a blank line
followed by the canonical URL carrying that exact handle; with no handle
the caption is exactly the link-free composition, so no URL is appended. -/
theorem link_appended_iff_handle (limit : Nat) (title desc : List Char) :
    (∀ h, h ≠ [] →
      _build_text limit title desc (some h) =
        truncBase limit title desc ++ '\n' :: '\n' :: (productUrlBase ++ h) ∧
      ('\n' :: '\n' :: (productUrlBase ++ h)) <:+
        _build_text limit title desc (some h)) ∧
    _build_text limit title desc none = truncBase limit title desc := by
  constructor
  · intro h hh
    have hlk := linkFor_some_ne h hh
    have hne : linkFor (some h) ≠ [] := by
      rw [hlk]; exact productUrlBase_ne_nil h
    have heq : _build_text limit title desc (some h) =
        truncBase limit title desc ++ '\n' :: '\n' :: (productUrlBase ++ h) := by
      rw [_build_text, if_neg hne, hlk]
    exact ⟨heq, heq ▸ List.suffix_append _ _⟩
  · simp [_build_text, linkFor]

/-- Claim C2, witness: the caption for handle "red-mug" ends with the
canonical URL. -/
theorem link_appended_iff_handle_witness :
    ('\n' :: '\n' :: (productUrlBase ++ "red-mug".data)) <:+
      _build_text 280 "Red Mug".data "Nice".data (some "red-mug".data) :=
  ((link_appended_iff_handle 280 "Red Mug".data "Nice".data).1
    "red-mug".data (by decide)).2

-- Claim C3.

/-- Claim C3: whenever the stripped concatenation of unescaped, trimmed
title and description exceeds the limit (at least 3), the base is cut to
`limit - 3` characters, right-stripped, and "..." is appended, before any
link; in particular a 300-character title with no description, no handle
and limit 280 composes to its first 277 characters followed by "...". -/
theorem truncation_spec :
    (∀ limit title desc handle, 3 ≤ limit → limit < (mkBase title desc).length →
      _build_text limit title desc handle =
        (rstrip ((mkBase title desc).take (limit - 3)) ++ '.' :: '.' :: '.' :: []) ++
          (if linkFor handle = [] then [] else '\n' :: '\n' :: linkFor handle)) ∧
    _build_text 280 (List.replicate 300 'a') [] none =
      List.replicate 277 'a' ++ '.' :: '.' :: '.' :: [] := by
  constructor
  · intro limit title desc handle h3 hlt
    have htb : truncBase limit title desc =
        rstrip ((mkBase title desc).take (limit - 3)) ++ '.' :: '.' :: '.' :: [] := by
      rw [truncBase, if_pos hlt, pyTake_of_le _ _ h3]
    by_cases hk : linkFor handle = []
    · simp [_build_text, hk, htb]
    · simp [_build_text, hk, htb]
  · decide

/-- Claim C3, witness for the general truncation equation at a concrete
input: a 13-character title with limit 10. -/
theorem truncation_spec_witness :
    3 ≤ 10 ∧ 10 < (mkBase "abcdefghijklm".data []).length ∧
    _build_text 10 "abcdefghijklm".data [] none =
      (rstrip ((mkBase "abcdefghijklm".data []).take (10 - 3)) ++
          '.' :: '.' :: '.' :: []) ++
        (if linkFor none = [] then [] else '\n' :: '\n' :: linkFor none) :=
  ⟨by decide, by decide,
    truncation_spec.1 10 "abcdefghijklm".data [] none (by decide) (by decide)⟩

-- Claim C10.

/-- Claim C10: the composer treats an empty-string handle exactly like an
absent handle — the captions agree and no URL is appended. -/
theorem empty_handle_eq_none_handle (limit : Nat) (title desc : List Char) :
    _build_text limit title desc (some []) = _build_text limit title desc none := by
  simp [_build_text, linkFor]

-- Claim C4.

/-- Claim C4: for a text-only post (no image URL resolved) with the
auto-publish flag enabled, the run emits only the create-container call
carrying the composed text; the publish endpoint is never called. -/
theorem auto_publish_skips_publish (cfg : Config) (seed : Nat)
    (page : List Product) (item : ContentItem)
    (htok : cfg.threadsToken ≠ []) (hauto : cfg.autoPublishText = true)
    (hres : resolveContent cfg seed page = .ok item)
    (himg : isTruthy item.imageUrl = false) :
    (runMain cfg seed page).1 =
      [ApiCall.createText
        (_build_text cfg.captionLimit item.title item.desc item.handle) true] ∧
    ApiCall.publish ∉ (runMain cfg seed page).1 := by
  have hrun : runMain cfg seed page =
      ([.createText
          (_build_text cfg.captionLimit item.title item.desc item.handle) true],
        .ok ()) := by
    unfold runMain
    rw [if_neg htok, hres]
    simp [himg, hauto]
  rw [hrun]
  exact ⟨rfl, by simp⟩

/-- Claim C4, witness: a concrete auto-publish text-only run emits exactly
one create-container call. -/
theorem auto_publish_skips_publish_witness :
    (runMain cfgAuto 0 []).1 =
      [ApiCall.createText
        (_build_text cfgAuto.captionLimit itemAuto.title itemAuto.desc
          itemAuto.handle) true] ∧
    ApiCall.publish ∉ (runMain cfgAuto 0 []).1 :=
  auto_publish_skips_publish cfgAuto 0 [] itemAuto (by decide) (by decide)
    rfl (by decide)

-- Claim C5.

/-- Claim C5: when the catalog path is taken and the fetched page is empty,
the run aborts with `EmptyCatalogError` and no remote publishing call
(neither create-container nor publish) is attempted. -/
theorem empty_catalog_aborts (cfg : Config) (seed : Nat)
    (htok : cfg.threadsToken ≠ []) (hsh : cfg.shopifyToken ≠ [])
    (hdirect : (isTruthy cfg.contentTitle && isTruthy cfg.contentDesc) = false)
    (hph : isTruthy cfg.productHandle = false) :
    runMain cfg seed [] = ([], .error Err.EmptyCatalogError) := by
  have hres : resolveContent cfg seed [] = .error .EmptyCatalogError := by
    unfold resolveContent resolveFromCatalog shopify_fetch_random
    simp [hdirect, hph, hsh]
  unfold runMain
  rw [if_neg htok, hres]

/-- Claim C5, witness: a concrete catalog-path run over an empty page. -/
theorem empty_catalog_aborts_witness :
    runMain cfgCatalog 7 [] = ([], .error Err.EmptyCatalogError) :=
  empty_catalog_aborts cfgCatalog 7 (by decide) (by decide) (by decide)
    (by decide)

-- Claim C6.

/-- Claim C6, counterexample: the page `[prodA, prodB]` contains `prodB`,
whose handle "ab" equals the requested identifier "ab" up to case (indeed
exactly), yet the fetch returns `prodA` (handle "AB"), the first
case-insensitive match — so "that item is returned" fails as stated. -/
theorem fetch_by_handle_counterexample :
    shopify_fetch_by_handle [prodA, prodB] "ab".data = some prodA ∧
    prodB ∈ [prodA, prodB] ∧ handleMatches prodB "ab".data = true ∧
    prodA ≠ prodB := by decide

/-- Claim C6 (amended): identifier-based fetch matches case-insensitively
over the page and returns the FIRST matching item; the returned item is
always a member of the page and a match; when no item matches, the fetch is
empty and content resolution fails with `NotFoundError`. -/
theorem fetch_by_handle_first_match (page : List Product) (ident : List Char) :
    (shopify_fetch_by_handle page ident = none ↔
      ∀ p ∈ page, handleMatches p ident = false) ∧
    (∀ p, shopify_fetch_by_handle page ident = some p →
      p ∈ page ∧ handleMatches p ident = true) ∧
    (∀ l1 p l2, page = l1 ++ p :: l2 → handleMatches p ident = true →
      (∀ q ∈ l1, handleMatches q ident = false) →
      shopify_fetch_by_handle page ident = some p) ∧
    (∀ cfg seed, cfg.shopifyToken ≠ [] →
      (isTruthy cfg.contentTitle && isTruthy cfg.contentDesc) = false →
      cfg.productHandle = some ident → ident ≠ [] →
      shopify_fetch_by_handle page ident = none →
      resolveContent cfg seed page = .error Err.NotFoundError) := by
  refine ⟨?_, ?_, ?_, ?_⟩
  · simp [shopify_fetch_by_handle, List.find?_eq_none]
  · intro p hp
    unfold shopify_fetch_by_handle at hp
    refine ⟨List.mem_of_find?_eq_some hp, ?_⟩
    have hm := List.find?_some hp
    simpa using hm
  · intro l1 p l2 hpage hm hnone
    subst hpage
    unfold shopify_fetch_by_handle
    rw [List.find?_append]
    have h1 : l1.find? (fun q => handleMatches q ident) = none :=
      List.find?_eq_none.mpr (by intro x hx; simp [hnone x hx])
    rw [h1, List.find?_cons_of_pos _ (by simp [hm])]
    rfl
  · intro cfg seed hsh hdirect hph hne hnone
    unfold resolveContent
    rw [if_neg (by simp [hdirect])]
    unfold resolveFromCatalog
    rw [if_neg hsh, hph]
    simp [isTruthy, hne, hnone]

/-- Claim C6, witness: on the page `[prodA, prodB]` the fetch for "ab"
returns a member of the page that matches case-insensitively. -/
theorem fetch_by_handle_first_match_witness :
    prodA ∈ [prodA, prodB] ∧ handleMatches prodA "ab".data = true :=
  (fetch_by_handle_first_match [prodA, prodB] "ab".data).2.1 prodA (by decide)

-- Claim C7.

/-- Claim C7, counterexample: for title "Red Mug", the HTML description
`<p>A nice <b>mug</b>.</p>`, handle "red-mug" and limit 280, the composed
caption is NOT the claimed string: the markup-stripping pass joins the
text nodes "A nice", "mug" and "." with single spaces, leaving a space
before the period. -/
theorem red_mug_scenario_counterexample :
    _build_text 280 "Red Mug".data
        (_clean_html_to_text "<p>A nice <b>mug</b>.</p>".data)
        (some "red-mug".data) ≠
      "Red Mug\n\nA nice mug.\n\nhttps://mydrxm.com/products/red-mug".data := by
  decide

/-- Claim C7 (amended): the composed caption for that scenario is
"Red Mug\n\nA nice mug .\n\nhttps://mydrxm.com/products/red-mug", with a
space before the period introduced by the text-node separator. -/
theorem red_mug_scenario_actual :
    _build_text 280 "Red Mug".data
        (_clean_html_to_text "<p>A nice <b>mug</b>.</p>".data)
        (some "red-mug".data) =
      "Red Mug\n\nA nice mug .\n\nhttps://mydrxm.com/products/red-mug".data := by
  decide

-- Claim C8.

theorem shopify_fetch_random_mem (seed : Nat) (page : List Product)
    (p : Product) (h : shopify_fetch_random seed page = .ok p) : p ∈ page := by
  unfold shopify_fetch_random at h
  split at h
  · exact absurd h (by simp)
  · injection h with h
    subst h
    exact List.get_mem _ _ _

theorem shopify_fetch_random_ok (seed : Nat) (page : List Product)
    (hne : page ≠ []) : ∃ p, shopify_fetch_random seed page = .ok p := by
  unfold shopify_fetch_random
  rw [dif_neg hne]
  exact ⟨_, rfl⟩

/-- Claim C8: for a fixed non-empty page and a fixed random state (seed),
the selection succeeds, the selected item is a member of the page, and any
run with the same seed and page selects the same item (the selection is a
deterministic function of seed and page in this embedding of
`random.choice`). -/
theorem random_selection_reproducible (seed : Nat) (page : List Product)
    (hne : page ≠ []) :
    ∃ p, shopify_fetch_random seed page = .ok p ∧ p ∈ page ∧
      ∀ seed2 page2, seed2 = seed → page2 = page →
        shopify_fetch_random seed2 page2 = .ok p := by
  obtain ⟨p, hp⟩ := shopify_fetch_random_ok seed page hne
  exact ⟨p, hp, shopify_fetch_random_mem seed page p hp,
    fun seed2 page2 hs hpg => by rw [hs, hpg]; exact hp⟩

/-- Claim C8, witness at a concrete seed and page. -/
theorem random_selection_reproducible_witness :
    ∃ p, shopify_fetch_random 3 [prodA, prodB] = .ok p ∧ p ∈ [prodA, prodB] ∧
      ∀ seed2 page2, seed2 = 3 → page2 = [prodA, prodB] →
        shopify_fetch_random seed2 page2 = .ok p :=
  random_selection_reproducible 3 [prodA, prodB] (by decide)

-- Claim C9.

/-- Claim C9: unless BOTH direct title and direct description are set and
non-empty, content resolution queries the catalog, and the supplied direct
values are ignored entirely — the result is the same as with no direct
values at all. -/
theorem direct_path_requires_both (cfg : Config) (seed : Nat)
    (page : List Product)
    (hb : (isTruthy cfg.contentTitle && isTruthy cfg.contentDesc) = false) :
    resolveContent cfg seed page = resolveFromCatalog cfg seed page ∧
    resolveContent cfg seed page =
      resolveContent
        { cfg with contentTitle := none, contentDesc := none } seed page := by
  have h1 : resolveContent cfg seed page = resolveFromCatalog cfg seed page := by
    unfold resolveContent
    rw [if_neg (by simp [hb])]
  have h2 : resolveContent
      { cfg with contentTitle := none, contentDesc := none } seed page =
      resolveFromCatalog
        { cfg with contentTitle := none, contentDesc := none } seed page := by
    unfold resolveContent
    rw [if_neg (by simp [isTruthy])]
  have h3 : resolveFromCatalog
      { cfg with contentTitle := none, contentDesc := none } seed page =
      resolveFromCatalog cfg seed page := by
    cases cfg
    rfl
  exact ⟨h1, by rw [h1, h2, h3]⟩

/-- Claim C9, witness: a configuration supplying only a title resolves
exactly as one supplying neither. -/
theorem direct_path_requires_both_witness :
    resolveContent cfgTitleOnly 0 [] = resolveFromCatalog cfgTitleOnly 0 [] ∧
    resolveContent cfgTitleOnly 0 [] =
      resolveContent
        { cfgTitleOnly with contentTitle := none, contentDesc := none } 0 [] :=
  direct_path_requires_both cfgTitleOnly 0 [] (by decide)

end ThreadsPost
